import Mathlib

/-!
Verification of the NeuralTicker core (src/main.py): a shallow embedding of
the two reusable operations, `fetch_stock_data` and `analyze_with_ollama`,
together with proofs of the behavioural properties stated for them.

Modelling conventions:
* A pandas `DataFrame` returned by `yfinance.Ticker(t).history(period=p)` is a
  list of daily rows indexed by date, with the seven columns Open, High, Low,
  Close, Volume, Dividends and Stock Splits.  No arithmetic is ever performed
  on the numeric cells, so their values are opaque payloads modelled as `Int`
  (dates as `String`).
* Exceptions are modelled with `Except String`, the error string standing for
  Python's `str(e)` of the raised exception.
* The two external services (the market-data transport and the Ollama chat
  endpoint) are oracles passed in as function arguments, so that what the code
  sends to them and how it reacts to their answers is fully observable.
* `analyze_with_ollama` additionally returns the list of chat requests it
  issued, making "performs no outbound model call" a provable statement.
-/

/-- One row of the price history frame: the date index plus the seven columns
yfinance returns.  Numeric cells are opaque payloads (`Int`): the code never
computes with them, it only selects and prints them. -/
structure Row where
  date : String
  Open : Int
  High : Int
  Low : Int
  Close : Int
  Volume : Int
  Dividends : Int
  StockSplits : Int
deriving DecidableEq, Repr

/-- The price series: an ordered list of daily rows (ascending date order as
returned by the provider). -/
structure DataFrame where
  rows : List Row
deriving DecidableEq, Repr

/-- A row of `data.tail(10)[["Open", "High", "Low", "Close", "Volume"]]`:
the date index plus exactly the five selected columns. -/
structure RestrictedRow where
  date : String
  Open : Int
  High : Int
  Low : Int
  Close : Int
  Volume : Int
deriving DecidableEq, Repr

/-- Column selection on one row: keeps the index and the five fields
Open/High/Low/Close/Volume, dropping Dividends and Stock Splits.  It builds a
fresh `RestrictedRow`, leaving the input row untouched. -/
def restrictRow (r : Row) : RestrictedRow :=
  ⟨r.date, r.Open, r.High, r.Low, r.Close, r.Volume⟩

/-- `data.empty` of pandas: true iff the frame has no rows. -/
def DataFrame.empty (df : DataFrame) : Bool :=
  df.rows.isEmpty

/-- `data.tail(n)` of pandas: a new frame holding the last `n` rows (all rows
when the frame is shorter), in the original order. -/
def DataFrame.tail (df : DataFrame) (n : Nat) : DataFrame :=
  ⟨df.rows.drop (df.rows.length - n)⟩

/-- `data[["Open", "High", "Low", "Close", "Volume"]]` of pandas: a new frame
restricted to the five columns, one fresh `RestrictedRow` per input row, in
the original order. -/
def DataFrame.restrict (df : DataFrame) : List RestrictedRow :=
  df.rows.map restrictRow

/-- One line of `recent_data.to_string()`: the date index followed by the five
cell values of the row. -/
def renderRestrictedRow (r : RestrictedRow) : String :=
  r.date ++ "  " ++ toString r.Open ++ "  " ++ toString r.High ++ "  " ++
    toString r.Low ++ "  " ++ toString r.Close ++ "  " ++ toString r.Volume

/-- The data lines of `recent_data.to_string()`: one line per row, in list
order, each preceded by a line break. -/
def renderRows : List RestrictedRow → String
  | [] => ""
  | r :: rs => "\n" ++ renderRestrictedRow r ++ renderRows rs

/-- Models `recent_data.to_string()` of pandas: the header row naming the five
columns, then the rows in order, one line each. -/
def toStringFrame (rows : List RestrictedRow) : String :=
  "Open  High  Low  Close  Volume" ++ renderRows rows

/-- One chat message of the Ollama request: a role/content pair. -/
structure ChatMessage where
  role : String
  content : String
deriving DecidableEq, Repr

/-- An `ollama.chat` request: the model name and the message list. -/
structure ChatRequest where
  model : String
  messages : List ChatMessage
deriving DecidableEq, Repr

/-- An `ollama.chat` response, as the code consumes it: a string-keyed
dictionary (e.g. key "message") of string-keyed dictionaries of strings
(e.g. key "content"). -/
abbrev ChatResponse := List (String × List (String × String))

/-- Python's `str(KeyError(k))`: the key wrapped in single quotes. -/
def pyQuote (k : String) : String :=
  (Char.ofNat 39).toString ++ k ++ (Char.ofNat 39).toString

/-- Python dictionary subscription `d[k]`: the value when the key is present,
otherwise a `KeyError` carrying the quoted key. -/
def dictGet {α : Type} (d : List (String × α)) (k : String) : Except String α :=
  match d.lookup k with
  | some v => Except.ok v
  | none => Except.error (pyQuote k)

/-- `response["message"]["content"]`: the two subscriptions performed inside
the `try` block, either one able to raise a `KeyError`. -/
def extractContent (resp : ChatResponse) : Except String String :=
  match dictGet resp "message" with
  | Except.ok msg => dictGet msg "content"
  | Except.error e => Except.error e

/-- The fixed prompt text before the ticker symbol. -/
def promptIntro : String :=
  "\nYou are a financial analyst.\n\nStock ticker: "

/-- The fixed prompt text between the ticker symbol and the rendered data. -/
def promptDataHeader : String :=
  "\n\nRecent market data:\n"

/-- The fixed prompt text after the rendered data: the four numbered tasks and
the 200-word limit instruction. -/
def promptTasks : String :=
  "\n\nTasks:\n1. Identify short-term trend\n2. Comment on volatility\n" ++
    "3. Provide a Buy / Sell / Hold recommendation\n4. Brief reasoning\n\n" ++
    "Limit response to 200 words.\n"

/-- The prompt f-string of `analyze_with_ollama`: the fixed template around
the ticker and `recent_data.to_string()`, where `recent_data` is
`data.tail(10)[["Open", "High", "Low", "Close", "Volume"]]`. -/
def buildPrompt (data : DataFrame) (ticker : String) : String :=
  promptIntro ++ ticker ++ promptDataHeader ++
    toStringFrame ((DataFrame.tail data 10).restrict) ++ promptTasks

/-- The single `ollama.chat` request the code builds: model "NeuralTicker" and
one message of role "user" carrying the prompt. -/
def analysisRequest (data : DataFrame) (ticker : String) : ChatRequest :=
  ⟨"NeuralTicker", [⟨"user", buildPrompt data ticker⟩]⟩

/-- `analyze_with_ollama(data, ticker)` of src/main.py, parameterised by the
`ollama.chat` oracle.  Returns the result string together with the list of
chat requests issued.  The `try` block covers both the chat call and the
extraction of `response["message"]["content"]`; `except Exception as e`
converts either failure into the string `"LLM Error: " ++ e`. -/
def analyze_with_ollama (chat : ChatRequest → Except String ChatResponse)
    (data : DataFrame) (ticker : String) : String × List ChatRequest :=
  if DataFrame.empty data then
    ("No data available for analysis.", [])
  else
    match chat (analysisRequest data ticker) with
    | Except.ok resp =>
      match extractContent resp with
      | Except.ok s => (s, [analysisRequest data ticker])
      | Except.error e => ("LLM Error: " ++ e, [analysisRequest data ticker])
    | Except.error e => ("LLM Error: " ++ e, [analysisRequest data ticker])

/-- The memoization cache of `@st.cache_data`: one entry per argument pair
(ticker, period) already fetched in this process. -/
abbrev PriceCache := List ((String × String) × DataFrame)

/-- `fetch_stock_data(ticker, period)` of src/main.py under `@st.cache_data`,
parameterised by the remote transport oracle and the current cache.  The
memoization semantics of the decorator (modelled from the spec: cache keyed by
argument equality, hit returns the stored frame without a remote call) wraps
the body, which issues the remote lookup and returns its result unmodified
with no error handling of its own: a transport failure propagates.  The
boolean records whether a remote call was made. -/
def fetch_stock_data (remote : String → String → Except String DataFrame)
    (cache : PriceCache) (ticker : String) (period : String) :
    Except String (DataFrame × PriceCache × Bool) :=
  match cache.lookup (ticker, period) with
  | some d => Except.ok (d, cache, false)
  | none =>
    match remote ticker period with
    | Except.ok d => Except.ok (d, ((ticker, period), d) :: cache, true)
    | Except.error e => Except.error e

/-- A concrete sample row for witnesses. -/
def sampleRow (d : String) (o h l c v : Int) : Row :=
  ⟨d, o, h, l, c, v, 0, 0⟩

/-- A concrete three-row frame for witnesses. -/
def dfThree : DataFrame :=
  ⟨[sampleRow "2024-01-02" 10 12 9 11 100,
    sampleRow "2024-01-03" 11 13 10 12 110,
    sampleRow "2024-01-04" 12 14 11 13 120]⟩

/-- A concrete twelve-row frame for witnesses. -/
def dfTwelve : DataFrame :=
  ⟨(List.range 12).map fun i =>
    sampleRow ("2024-02-" ++ toString i) i (i + 1) (i - 1) i (100 + i)⟩

/-- C2: for every empty price series and every ticker, analyze returns exactly
the literal string "No data available for analysis." and issues no chat
request at all. -/
theorem analyze_empty_no_call (chat : ChatRequest → Except String ChatResponse)
    (df : DataFrame) (ticker : String) (h : df.rows = []) :
    analyze_with_ollama chat df ticker = ("No data available for analysis.", []) := by
  simp [analyze_with_ollama, DataFrame.empty, h]

/-- Witness for C2: the empty frame with an unreachable failing oracle. -/
theorem analyze_empty_no_call_witness :
    analyze_with_ollama (fun _ => Except.error "connection refused") ⟨[]⟩ "AAPL" =
      ("No data available for analysis.", []) :=
  analyze_empty_no_call (fun _ => Except.error "connection refused") ⟨[]⟩ "AAPL" rfl

/-- C3: for every non-empty series, when the chat call raises, analyze returns
the pair of the string "LLM Error: " followed by the error description and the
single request it issued — it returns normally rather than propagating. -/
theorem analyze_llm_error (chat : ChatRequest → Except String ChatResponse)
    (df : DataFrame) (ticker : String) (e : String)
    (h1 : df.rows ≠ [])
    (h2 : chat (analysisRequest df ticker) = Except.error e) :
    analyze_with_ollama chat df ticker =
      ("LLM Error: " ++ e, [analysisRequest df ticker]) := by
  simp [analyze_with_ollama, DataFrame.empty, List.isEmpty_iff, h1, h2]

/-- Witness for C3: a three-row frame and an oracle that always raises. -/
theorem analyze_llm_error_witness :
    analyze_with_ollama (fun _ => Except.error "connection refused") dfThree "AAPL" =
      ("LLM Error: " ++ "connection refused", [analysisRequest dfThree "AAPL"]) :=
  analyze_llm_error (fun _ => Except.error "connection refused") dfThree "AAPL"
    "connection refused" (by decide) rfl

/-- C6: for every non-empty series, analyze issues exactly one request, to
model "NeuralTicker", holding exactly one message of role "user" carrying the
prompt; when the call succeeds and the reply carries a content string, that
string is returned verbatim. -/
theorem analyze_single_user_message (chat : ChatRequest → Except String ChatResponse)
    (df : DataFrame) (ticker : String) (resp : ChatResponse) (s : String)
    (h1 : df.rows ≠ [])
    (h2 : chat (analysisRequest df ticker) = Except.ok resp)
    (h3 : extractContent resp = Except.ok s) :
    analyze_with_ollama chat df ticker = (s, [analysisRequest df ticker]) ∧
    (analysisRequest df ticker).model = "NeuralTicker" ∧
    (analysisRequest df ticker).messages = [⟨"user", buildPrompt df ticker⟩] := by
  refine ⟨?_, rfl, rfl⟩
  simp [analyze_with_ollama, DataFrame.empty, List.isEmpty_iff, h1, h2, h3]

/-- Witness for C6: a well-formed reply "Hold" is returned verbatim. -/
theorem analyze_single_user_message_witness :
    analyze_with_ollama (fun _ => Except.ok [("message", [("content", "Hold")])])
        dfThree "AAPL" = ("Hold", [analysisRequest dfThree "AAPL"]) ∧
    (analysisRequest dfThree "AAPL").model = "NeuralTicker" ∧
    (analysisRequest dfThree "AAPL").messages =
      [⟨"user", buildPrompt dfThree "AAPL"⟩] :=
  analyze_single_user_message (fun _ => Except.ok [("message", [("content", "Hold")])])
    dfThree "AAPL" [("message", [("content", "Hold")])] "Hold" (by decide) rfl rfl

/-- C9: the error boundary also covers the extraction of the reply text: for
every non-empty series, when the chat call itself succeeds but subscripting
the response fails (e.g. a missing "message" or "content" key), analyze still
returns an "LLM Error: "-prefixed string instead of raising. -/
theorem analyze_extraction_error (chat : ChatRequest → Except String ChatResponse)
    (df : DataFrame) (ticker : String) (resp : ChatResponse) (e : String)
    (h1 : df.rows ≠ [])
    (h2 : chat (analysisRequest df ticker) = Except.ok resp)
    (h3 : extractContent resp = Except.error e) :
    analyze_with_ollama chat df ticker =
      ("LLM Error: " ++ e, [analysisRequest df ticker]) := by
  simp [analyze_with_ollama, DataFrame.empty, List.isEmpty_iff, h1, h2, h3]

/-- Witness for C9: a reply lacking the "message" key is converted into the
"LLM Error: " string carrying the KeyError description. -/
theorem analyze_extraction_error_witness :
    analyze_with_ollama (fun _ => Except.ok []) dfThree "AAPL" =
      ("LLM Error: " ++ pyQuote "message", [analysisRequest dfThree "AAPL"]) :=
  analyze_extraction_error (fun _ => Except.ok []) dfThree "AAPL" []
    (pyQuote "message") (by decide) rfl rfl

/-- C7: fetch has no error handling of its own: for every ticker and window
not already cached, a transport failure propagates out of fetch unchanged. -/
theorem fetch_error_propagates (remote : String → String → Except String DataFrame)
    (cache : PriceCache) (ticker period e : String)
    (h1 : cache.lookup (ticker, period) = none)
    (h2 : remote ticker period = Except.error e) :
    fetch_stock_data remote cache ticker period = Except.error e := by
  simp [fetch_stock_data, h1, h2]

/-- Witness for C7: an empty cache and a transport that raises an HTTP error. -/
theorem fetch_error_propagates_witness :
    fetch_stock_data (fun _ _ => Except.error "HTTPError 404") [] "ZZZZINVALID" "1mo" =
      Except.error "HTTPError 404" :=
  fetch_error_propagates (fun _ _ => Except.error "HTTPError 404") []
    "ZZZZINVALID" "1mo" "HTTPError 404" rfl rfl

/-- C5: memoization: once a (ticker, period) pair has been fetched, fetching
the identical pair again returns the very frame of the first call, leaves the
cache unchanged, and performs no remote call. -/
theorem fetch_memoized (remote : String → String → Except String DataFrame)
    (cache : PriceCache) (ticker period : String) (d : DataFrame)
    (c1 : PriceCache) (b : Bool)
    (h : fetch_stock_data remote cache ticker period = Except.ok (d, c1, b)) :
    fetch_stock_data remote c1 ticker period = Except.ok (d, c1, false) := by
  cases hc : cache.lookup (ticker, period) with
  | some d0 =>
    simp [fetch_stock_data, hc] at h
    obtain ⟨hd, hc1, hb⟩ := h
    subst hd
    subst hc1
    simp [fetch_stock_data, hc]
  | none =>
    cases hr : remote ticker period with
    | ok d0 =>
      simp [fetch_stock_data, hc, hr] at h
      obtain ⟨hd, hc1, hb⟩ := h
      subst hd
      subst hc1
      simp [fetch_stock_data, List.lookup]
    | error e =>
      simp [fetch_stock_data, hc, hr] at h

/-- Witness for C5: after a first fetch fills the cache, the identical pair is
answered from the cache with no remote call. -/
theorem fetch_memoized_witness :
    fetch_stock_data (fun _ _ => Except.ok dfThree)
        [(("AAPL", "1mo"), dfThree)] "AAPL" "1mo" =
      Except.ok (dfThree, [(("AAPL", "1mo"), dfThree)], false) :=
  fetch_memoized (fun _ _ => Except.ok dfThree) [] "AAPL" "1mo" dfThree
    [(("AAPL", "1mo"), dfThree)] true rfl

/-- Each row of a rendered list appears contiguously in the rendered text. -/
theorem renderRows_mem (r : RestrictedRow) (rows : List RestrictedRow)
    (h : r ∈ rows) :
    ∃ u v : List Char,
      (renderRows rows).data = u ++ (renderRestrictedRow r).data ++ v := by
  induction rows with
  | nil => cases h
  | cons a l ih =>
    cases List.mem_cons.mp h with
    | inl h1 =>
      subst h1
      exact ⟨"\n".data, (renderRows l).data,
        by simp [renderRows, String.data_append]⟩
    | inr h2 =>
      obtain ⟨u, v, hu⟩ := ih h2
      exact ⟨"\n".data ++ (renderRestrictedRow a).data ++ u, v,
        by simp [renderRows, String.data_append, hu]⟩

/-- The character data of the prompt, flattened into its six sections. -/
theorem buildPrompt_data (df : DataFrame) (t : String) :
    (buildPrompt df t).data =
      promptIntro.data ++ t.data ++ promptDataHeader.data ++
        "Open  High  Low  Close  Volume".data ++
        (renderRows ((DataFrame.tail df 10).restrict)).data ++ promptTasks.data := by
  simp [buildPrompt, toStringFrame, String.data_append]

/-- Any contiguous piece of the task section appears contiguously in the
whole prompt. -/
theorem prompt_contains_of_tasks_split (df : DataFrame) (t : String)
    (pre mid post : List Char) (hs : promptTasks.data = pre ++ mid ++ post) :
    ∃ u v : List Char, (buildPrompt df t).data = u ++ mid ++ v := by
  refine ⟨promptIntro.data ++ t.data ++ promptDataHeader.data ++
      "Open  High  Low  Close  Volume".data ++
      (renderRows ((DataFrame.tail df 10).restrict)).data ++ pre, post, ?_⟩
  simp [buildPrompt_data, hs, List.append_assoc]

/-- The ticker symbol appears contiguously in the prompt. -/
theorem prompt_contains_ticker (df : DataFrame) (t : String) :
    ∃ u v : List Char, (buildPrompt df t).data = u ++ t.data ++ v := by
  refine ⟨promptIntro.data,
    promptDataHeader.data ++ "Open  High  Low  Close  Volume".data ++
      (renderRows ((DataFrame.tail df 10).restrict)).data ++ promptTasks.data, ?_⟩
  simp [buildPrompt_data, List.append_assoc]

/-- Every row of the restricted tail is rendered contiguously in the prompt. -/
theorem prompt_contains_row (df : DataFrame) (t : String) (r : Row)
    (h : r ∈ (DataFrame.tail df 10).rows) :
    ∃ u v : List Char,
      (buildPrompt df t).data = u ++ (renderRestrictedRow (restrictRow r)).data ++ v := by
  have hm : restrictRow r ∈ (DataFrame.tail df 10).restrict :=
    List.mem_map_of_mem restrictRow h
  obtain ⟨u, v, hu⟩ := renderRows_mem (restrictRow r) _ hm
  refine ⟨promptIntro.data ++ t.data ++ promptDataHeader.data ++
      "Open  High  Low  Close  Volume".data ++ u,
    v ++ promptTasks.data, ?_⟩
  simp [buildPrompt_data, hu, List.append_assoc]

/-- C1: for every series of at least 10 rows, the prompt embeds exactly the
last 10 rows restricted to the five fields — the tail has length exactly 10,
it is the final segment of the series, the prompt is the template around its
rendering, and each of those rows' values (and the ticker) appears in the
prompt text. -/
theorem analyze_prompt_last_ten (df : DataFrame) (ticker : String)
    (h : 10 ≤ df.rows.length) :
    (DataFrame.tail df 10).rows.length = 10 ∧
    df.rows.take (df.rows.length - 10) ++ (DataFrame.tail df 10).rows = df.rows ∧
    buildPrompt df ticker =
      promptIntro ++ ticker ++ promptDataHeader ++
        toStringFrame ((DataFrame.tail df 10).rows.map restrictRow) ++ promptTasks ∧
    (∃ u v : List Char, (buildPrompt df ticker).data = u ++ ticker.data ++ v) ∧
    ∀ r ∈ (DataFrame.tail df 10).rows, ∃ u v : List Char,
      (buildPrompt df ticker).data = u ++ (renderRestrictedRow (restrictRow r)).data ++ v := by
  refine ⟨?_, List.take_append_drop _ _, rfl, prompt_contains_ticker df ticker, ?_⟩
  · simp [DataFrame.tail]
    omega
  · intro r hr
    exact prompt_contains_row df ticker r hr

/-- C4: for every non-empty series shorter than 10 rows, the tail of 10 is the
whole series and the prompt embeds all of its rows, neither padded nor
truncated. -/
theorem analyze_prompt_short_series (df : DataFrame) (ticker : String)
    (h1 : df.rows ≠ []) (h2 : df.rows.length < 10) :
    (DataFrame.tail df 10).rows = df.rows ∧
    buildPrompt df ticker =
      promptIntro ++ ticker ++ promptDataHeader ++
        toStringFrame (df.rows.map restrictRow) ++ promptTasks ∧
    ∀ r ∈ df.rows, ∃ u v : List Char,
      (buildPrompt df ticker).data = u ++ (renderRestrictedRow (restrictRow r)).data ++ v := by
  have ht : (DataFrame.tail df 10).rows = df.rows := by
    simp [DataFrame.tail, Nat.sub_eq_zero_of_le (Nat.le_of_lt h2)]
  refine ⟨ht, ?_, ?_⟩
  · simp [buildPrompt, DataFrame.restrict, ht]
  · intro r hr
    exact prompt_contains_row df ticker r (ht.symm ▸ hr)

/-- C8: for every non-empty series, the prompt is the fixed template: it opens
with the analyst framing, states the ticker, embeds the rendered tabular data,
asks for the four numbered tasks (trend, volatility, Buy/Sell/Hold
recommendation, reasoning) and instructs a 200-word limit. -/
theorem analyze_prompt_template (df : DataFrame) (ticker : String)
    (h : df.rows ≠ []) :
    buildPrompt df ticker =
      promptIntro ++ ticker ++ promptDataHeader ++
        toStringFrame ((DataFrame.tail df 10).restrict) ++ promptTasks ∧
    promptIntro = "\nYou are a financial analyst.\n\nStock ticker: " ∧
    promptDataHeader = "\n\nRecent market data:\n" ∧
    promptTasks =
      "\n\nTasks:\n1. Identify short-term trend\n2. Comment on volatility\n3. Provide a Buy / Sell / Hold recommendation\n4. Brief reasoning\n\nLimit response to 200 words.\n" ∧
    (∃ u v : List Char, (buildPrompt df ticker).data = u ++ ticker.data ++ v) ∧
    (∃ u v : List Char, (buildPrompt df ticker).data =
      u ++ "1. Identify short-term trend".data ++ v) ∧
    (∃ u v : List Char, (buildPrompt df ticker).data =
      u ++ "2. Comment on volatility".data ++ v) ∧
    (∃ u v : List Char, (buildPrompt df ticker).data =
      u ++ "3. Provide a Buy / Sell / Hold recommendation".data ++ v) ∧
    (∃ u v : List Char, (buildPrompt df ticker).data =
      u ++ "4. Brief reasoning".data ++ v) ∧
    (∃ u v : List Char, (buildPrompt df ticker).data =
      u ++ "Limit response to 200 words.".data ++ v) := by
  refine ⟨rfl, rfl, rfl, by decide, prompt_contains_ticker df ticker, ?_, ?_, ?_, ?_, ?_⟩
  · exact prompt_contains_of_tasks_split df ticker "\n\nTasks:\n".data
      "1. Identify short-term trend".data
      "\n2. Comment on volatility\n3. Provide a Buy / Sell / Hold recommendation\n4. Brief reasoning\n\nLimit response to 200 words.\n".data
      (by decide)
  · exact prompt_contains_of_tasks_split df ticker
      "\n\nTasks:\n1. Identify short-term trend\n".data
      "2. Comment on volatility".data
      "\n3. Provide a Buy / Sell / Hold recommendation\n4. Brief reasoning\n\nLimit response to 200 words.\n".data
      (by decide)
  · exact prompt_contains_of_tasks_split df ticker
      "\n\nTasks:\n1. Identify short-term trend\n2. Comment on volatility\n".data
      "3. Provide a Buy / Sell / Hold recommendation".data
      "\n4. Brief reasoning\n\nLimit response to 200 words.\n".data
      (by decide)
  · exact prompt_contains_of_tasks_split df ticker
      "\n\nTasks:\n1. Identify short-term trend\n2. Comment on volatility\n3. Provide a Buy / Sell / Hold recommendation\n".data
      "4. Brief reasoning".data
      "\n\nLimit response to 200 words.\n".data
      (by decide)
  · exact prompt_contains_of_tasks_split df ticker
      "\n\nTasks:\n1. Identify short-term trend\n2. Comment on volatility\n3. Provide a Buy / Sell / Hold recommendation\n4. Brief reasoning\n\n".data
      "Limit response to 200 words.".data
      "\n".data
      (by decide)

/-- C10: analyze never alters its input series: the embedded operations build
fresh values only — the tail is a final segment of the input rows, the column
restriction is a per-row map producing fresh restricted rows, every ordering
relation holding pairwise on the input rows still holds on the rows the prompt
embeds, and the prompt is a function of exactly that final segment, in input
order. -/
theorem analyze_preserves_input (df : DataFrame) (ticker : String) :
    (∃ pre, pre ++ (DataFrame.tail df 10).rows = df.rows) ∧
    (DataFrame.tail df 10).restrict = (DataFrame.tail df 10).rows.map restrictRow ∧
    (∀ R : Row → Row → Prop, df.rows.Pairwise R →
      (DataFrame.tail df 10).rows.Pairwise R) ∧
    buildPrompt df ticker =
      promptIntro ++ ticker ++ promptDataHeader ++
        toStringFrame ((DataFrame.tail df 10).rows.map restrictRow) ++ promptTasks := by
  refine ⟨⟨df.rows.take (df.rows.length - 10), List.take_append_drop _ _⟩, rfl, ?_, rfl⟩
  intro R hR
  exact List.Pairwise.sublist (List.drop_sublist _ _) hR

/-- Witness for C1: the twelve-row frame — the prompt embeds exactly its last
ten rows. -/
theorem analyze_prompt_last_ten_witness :
    (DataFrame.tail dfTwelve 10).rows.length = 10 ∧
    dfTwelve.rows.take (dfTwelve.rows.length - 10) ++
      (DataFrame.tail dfTwelve 10).rows = dfTwelve.rows ∧
    buildPrompt dfTwelve "AAPL" =
      promptIntro ++ "AAPL" ++ promptDataHeader ++
        toStringFrame ((DataFrame.tail dfTwelve 10).rows.map restrictRow) ++ promptTasks ∧
    (∃ u v : List Char,
      (buildPrompt dfTwelve "AAPL").data = u ++ "AAPL".data ++ v) ∧
    ∀ r ∈ (DataFrame.tail dfTwelve 10).rows, ∃ u v : List Char,
      (buildPrompt dfTwelve "AAPL").data =
        u ++ (renderRestrictedRow (restrictRow r)).data ++ v :=
  analyze_prompt_last_ten dfTwelve "AAPL" (by decide)

/-- Witness for C4: the three-row frame — the prompt embeds all three rows. -/
theorem analyze_prompt_short_series_witness :
    (DataFrame.tail dfThree 10).rows = dfThree.rows ∧
    buildPrompt dfThree "AAPL" =
      promptIntro ++ "AAPL" ++ promptDataHeader ++
        toStringFrame (dfThree.rows.map restrictRow) ++ promptTasks ∧
    ∀ r ∈ dfThree.rows, ∃ u v : List Char,
      (buildPrompt dfThree "AAPL").data =
        u ++ (renderRestrictedRow (restrictRow r)).data ++ v :=
  analyze_prompt_short_series dfThree "AAPL" (by decide) (by decide)

/-- Witness for C8: the fixed template at the three-row frame. -/
theorem analyze_prompt_template_witness :
    buildPrompt dfThree "AAPL" =
      promptIntro ++ "AAPL" ++ promptDataHeader ++
        toStringFrame ((DataFrame.tail dfThree 10).restrict) ++ promptTasks ∧
    promptIntro = "\nYou are a financial analyst.\n\nStock ticker: " ∧
    promptDataHeader = "\n\nRecent market data:\n" ∧
    promptTasks =
      "\n\nTasks:\n1. Identify short-term trend\n2. Comment on volatility\n3. Provide a Buy / Sell / Hold recommendation\n4. Brief reasoning\n\nLimit response to 200 words.\n" ∧
    (∃ u v : List Char,
      (buildPrompt dfThree "AAPL").data = u ++ "AAPL".data ++ v) ∧
    (∃ u v : List Char, (buildPrompt dfThree "AAPL").data =
      u ++ "1. Identify short-term trend".data ++ v) ∧
    (∃ u v : List Char, (buildPrompt dfThree "AAPL").data =
      u ++ "2. Comment on volatility".data ++ v) ∧
    (∃ u v : List Char, (buildPrompt dfThree "AAPL").data =
      u ++ "3. Provide a Buy / Sell / Hold recommendation".data ++ v) ∧
    (∃ u v : List Char, (buildPrompt dfThree "AAPL").data =
      u ++ "4. Brief reasoning".data ++ v) ∧
    (∃ u v : List Char, (buildPrompt dfThree "AAPL").data =
      u ++ "Limit response to 200 words.".data ++ v) :=
  analyze_prompt_template dfThree "AAPL" (by decide)
